import Mathlib

/-!
# Verification of the Plants database service

A shallow embedding of `Plants_db.py` (the SQLite data-access layer) and
`Plants_api.py` (the Flask HTTP handlers) of the plants-database repository,
together with proofs and refutations of the specification's claims.

Modelling conventions:

* Each SQLite table is a list of row structures; `INTEGER PRIMARY KEY`
  columns are `Nat` rowids, assigned as `max existing rowid + 1` (SQLite's
  rule in the absence of rowid exhaustion).
* The sqlite3 connection's `last_insert_rowid` counter is part of the state
  (`DbState.lastInsertRowid`, 0 on a fresh connection).  CPython's sqlite3
  module sets `cursor.lastrowid` from `sqlite3_last_insert_rowid()` after
  executing any INSERT statement, so after an `INSERT OR IGNORE` whose row
  was ignored, `cursor.lastrowid` is the rowid of the most recent
  *successful* insert on the connection, into whichever table.
* Query results (`dict(row)` via `row_to_dict_or_none`) are association
  lists `List (String × Value)` whose keys are exactly the columns named in
  the SELECT, in SELECT order; `fetchone` is `List.head?` of the matching
  rows in table order.
* `PRAGMA foreign_keys = 1` is executed in `PlantsDatabase.__init__`, so
  foreign-key constraints are enforced: SQLite's `OR IGNORE` conflict
  resolution does not apply to FOREIGN KEY constraints, and inserting a row
  whose referenced key is absent raises `sqlite3.IntegrityError`.  A row
  skipped because of a UNIQUE conflict is never inserted, so it triggers no
  foreign-key check.
* Fallible operations return `Except String`; the error string stands for
  the Python exception raised.
* The repository only ever passes strings for the text columns and
  integer-valued data for `pH` (SQLite's INTEGER column affinity turns the
  form's digit strings into integers), so text columns are `String` and
  `pH` is `Int`.
-/

/-- A cell value as it appears in a `dict(row)` result: SQLite TEXT or
INTEGER. -/
inductive Value where
  | text (s : String)
  | int (i : Int)
deriving Repr, DecidableEq

/-- A `dict` representation of a fetched row: column name to value, in
SELECT-list order, as produced by `row_to_dict_or_none`. -/
abbrev DbRecord := List (String × Value)

/-- A row of the `fertilizer` table:
`fertilizer_id INTEGER PRIMARY KEY, fertilizer_type TEXT UNIQUE`. -/
structure FertilizerRow where
  fertilizer_id : Nat
  fertilizer_type : String
deriving Repr, DecidableEq

/-- A row of the `plots` table: `plot_id INTEGER PRIMARY KEY,
sunlight TEXT UNIQUE, pH INTEGER, fertilizer_type TEXT,
FOREIGN KEY (fertilizer_type) REFERENCES fertilizer(fertilizer_type)`. -/
structure PlotRow where
  plot_id : Nat
  sunlight : String
  pH : Int
  fertilizer_type : String
deriving Repr, DecidableEq

/-- A row of the `Plant` table: `Plant_id INTEGER PRIMARY KEY,
name TEXT UNIQUE, pH INTEGER, fertilizer_type TEXT, sunlight TEXT,
FOREIGN KEY (fertilizer_type) REFERENCES fertilizer(fertilizer_type),
FOREIGN KEY (sunlight) REFERENCES plots(sunlight)`. -/
structure PlantRow where
  Plant_id : Nat
  name : String
  pH : Int
  fertilizer_type : String
  sunlight : String
deriving Repr, DecidableEq

/-- The state behind one `PlantsDatabase` connection: the three tables and
the connection's `last_insert_rowid` value (0 before any successful
insert). -/
structure DbState where
  fertilizer : List FertilizerRow
  plots : List PlotRow
  Plant : List PlantRow
  lastInsertRowid : Nat
deriving Repr, DecidableEq

/-- The state right after `create_tables`: three empty tables, no insert
performed yet on the connection. -/
def emptyDb : DbState :=
  { fertilizer := [], plots := [], Plant := [], lastInsertRowid := 0 }

/-- SQLite's fresh-rowid rule for `INTEGER PRIMARY KEY`: one more than the
largest existing rowid (1 for an empty table). -/
def nextId (ids : List Nat) : Nat :=
  ids.foldr max 0 + 1

namespace PlantsDatabase

/-- Source `get_fertilizer_by_id`:
`SELECT fertilizer_id, fertilizer_type FROM fertilizer WHERE Fertilizer_id = ?`,
one row fetched via `row_to_dict_or_none`. -/
def get_fertilizer_by_id (db : DbState) (fid : Nat) : Option DbRecord :=
  ((db.fertilizer.filter (fun r => r.fertilizer_id == fid)).head?).map
    (fun r => [("fertilizer_id", Value.int r.fertilizer_id),
               ("fertilizer_type", Value.text r.fertilizer_type)])

/-- Source `get_fertilizer_by_type`:
`SELECT fertilizer_type, fertilizer_id FROM fertilizer WHERE Fertilizer_type = ?`. -/
def get_fertilizer_by_type (db : DbState) (t : String) : Option DbRecord :=
  ((db.fertilizer.filter (fun r => r.fertilizer_type == t)).head?).map
    (fun r => [("fertilizer_type", Value.text r.fertilizer_type),
               ("fertilizer_id", Value.int r.fertilizer_id)])

/-- Source `get_all_fertilizer`: `SELECT * FROM fertilizer`, all columns in table
order. -/
def get_all_fertilizer (db : DbState) : List DbRecord :=
  db.fertilizer.map
    (fun r => [("fertilizer_id", Value.int r.fertilizer_id),
               ("fertilizer_type", Value.text r.fertilizer_type)])

/-- Source `insert_fertilizer`:
`INSERT OR IGNORE INTO fertilizer(fertilizer_type) VALUES(?)`, commit, then
`return self.get_fertilizer_by_id(cur.lastrowid)`.  When the type is
already present the INSERT is ignored and `cur.lastrowid` is the
connection's stale `last_insert_rowid`. -/
def insert_fertilizer (db : DbState) (fertilizer_type : String) :
    DbState × Option DbRecord :=
  let db' :=
    if db.fertilizer.any (fun r => r.fertilizer_type == fertilizer_type) then
      db
    else
      let fid := nextId (db.fertilizer.map (fun r => r.fertilizer_id))
      { db with
        fertilizer := db.fertilizer ++
          [{ fertilizer_id := fid, fertilizer_type := fertilizer_type }],
        lastInsertRowid := fid }
  (db', get_fertilizer_by_id db' db'.lastInsertRowid)

/-- Source `get_plot_by_id`: `SELECT plot_id FROM plots WHERE plot_id = ?` — note
the SELECT list names only the primary-key column. -/
def get_plot_by_id (db : DbState) (pid : Nat) : Option DbRecord :=
  ((db.plots.filter (fun r => r.plot_id == pid)).head?).map
    (fun r => [("plot_id", Value.int r.plot_id)])

/-- Source `get_plots_by_sunlight`:
`SELECT plot_id, sunlight FROM plots WHERE sunlight = ?`, one row. -/
def get_plots_by_sunlight (db : DbState) (sunlight : String) : Option DbRecord :=
  ((db.plots.filter (fun r => r.sunlight == sunlight)).head?).map
    (fun r => [("plot_id", Value.int r.plot_id),
               ("sunlight", Value.text r.sunlight)])

/-- Source `get_plots_by_pH`: `SELECT plot_id, pH FROM plots WHERE pH = ?`, one
row. -/
def get_plots_by_pH (db : DbState) (pH : Int) : Option DbRecord :=
  ((db.plots.filter (fun r => r.pH == pH)).head?).map
    (fun r => [("plot_id", Value.int r.plot_id), ("pH", Value.int r.pH)])

/-- Source `get_plots_by_fertilizer`:
`SELECT plot_id, fertilizer_type FROM plots WHERE fertilizer_type = ?`,
one row. -/
def get_plots_by_fertilizer (db : DbState) (t : String) : Option DbRecord :=
  ((db.plots.filter (fun r => r.fertilizer_type == t)).head?).map
    (fun r => [("plot_id", Value.int r.plot_id),
               ("fertilizer_type", Value.text r.fertilizer_type)])

/-- Source `get_all_plots`: `SELECT * FROM plots`. -/
def get_all_plots (db : DbState) : List DbRecord :=
  db.plots.map
    (fun r => [("plot_id", Value.int r.plot_id),
               ("sunlight", Value.text r.sunlight),
               ("pH", Value.int r.pH),
               ("fertilizer_type", Value.text r.fertilizer_type)])

/-- Source `insert_plot`: first `self.insert_fertilizer(fertilizer_type)` (so the
referenced fertilizer always exists), then
`INSERT OR IGNORE INTO plots(sunlight, pH, fertilizer_type) VALUES(?, ?, ?)`,
commit, and `return self.get_plots_by_sunlight(sunlight)`. -/
def insert_plot (db : DbState) (sunlight : String) (pH : Int)
    (fertilizer_type : String) : Except String (DbState × Option DbRecord) :=
  let db1 := (insert_fertilizer db fertilizer_type).1
  if db1.plots.any (fun r => r.sunlight == sunlight) then
    Except.ok (db1, get_plots_by_sunlight db1 sunlight)
  else if db1.fertilizer.any (fun r => r.fertilizer_type == fertilizer_type) then
    let pid := nextId (db1.plots.map (fun r => r.plot_id))
    let db2 := { db1 with
      plots := db1.plots ++
        [{ plot_id := pid, sunlight := sunlight, pH := pH,
           fertilizer_type := fertilizer_type }],
      lastInsertRowid := pid }
    Except.ok (db2, get_plots_by_sunlight db2 sunlight)
  else
    Except.error "sqlite3.IntegrityError: FOREIGN KEY constraint failed"

/-- Source `get_plant_by_id`:
`SELECT Plant_id FROM Plant WHERE Plant.Plant_id = ?` — the SELECT list
names only the primary-key column. -/
def get_plant_by_id (db : DbState) (pid : Nat) : Option DbRecord :=
  ((db.Plant.filter (fun r => r.Plant_id == pid)).head?).map
    (fun r => [("Plant_id", Value.int r.Plant_id)])

/-- Source `get_plant_by_name`:
`SELECT Plant_id, name FROM Plant WHERE Plant.name = ?`, one row. -/
def get_plant_by_name (db : DbState) (name : String) : Option DbRecord :=
  ((db.Plant.filter (fun r => r.name == name)).head?).map
    (fun r => [("Plant_id", Value.int r.Plant_id),
               ("name", Value.text r.name)])

/-- Source `get_plant_by_fertilzer` (sic):
`SELECT Plant.fertilizer_type FROM Plant WHERE Plant.fertilizer_type = ?`,
one row — the SELECT list names only the fertilizer column, and the dict
key is the bare column name. -/
def get_plant_by_fertilzer (db : DbState) (t : String) : Option DbRecord :=
  ((db.Plant.filter (fun r => r.fertilizer_type == t)).head?).map
    (fun r => [("fertilizer_type", Value.text r.fertilizer_type)])

/-- Source `get_all_plants`: `SELECT * FROM Plant`. -/
def get_all_plants (db : DbState) : List DbRecord :=
  db.Plant.map
    (fun r => [("Plant_id", Value.int r.Plant_id),
               ("name", Value.text r.name),
               ("pH", Value.int r.pH),
               ("fertilizer_type", Value.text r.fertilizer_type),
               ("sunlight", Value.text r.sunlight)])

/-- Source `insert_plant`:
`INSERT OR IGNORE INTO plant(name, pH, fertilizer_type, sunlight)
VALUES(?, ?, ?, ?)`, commit, then
`return self.get_plant_by_id(cur.lastrowid)`.  No fertilizer (or plot) is
created first: with `PRAGMA foreign_keys = 1` an insert of a new name whose
`fertilizer_type` is not in `fertilizer`, or whose `sunlight` is not in
`plots`, aborts with `sqlite3.IntegrityError`; a duplicate name is ignored
(no row inserted, hence no foreign-key check) and `cur.lastrowid` is the
connection's stale `last_insert_rowid`. -/
def insert_plant (db : DbState) (name : String) (pH : Int)
    (fertilizer_type : String) (sunlight : String) :
    Except String (DbState × Option DbRecord) :=
  if db.Plant.any (fun r => r.name == name) then
    Except.ok (db, get_plant_by_id db db.lastInsertRowid)
  else if db.fertilizer.any (fun r => r.fertilizer_type == fertilizer_type)
      && db.plots.any (fun r => r.sunlight == sunlight) then
    let pid := nextId (db.Plant.map (fun r => r.Plant_id))
    let db2 := { db with
      Plant := db.Plant ++
        [{ Plant_id := pid, name := name, pH := pH,
           fertilizer_type := fertilizer_type, sunlight := sunlight }],
      lastInsertRowid := pid }
    Except.ok (db2, get_plant_by_id db2 pid)
  else
    Except.error "sqlite3.IntegrityError: FOREIGN KEY constraint failed"

/-- The literal query string of `delete_plant` in the source.  Note the
trailing comma after the placeholder. -/
def delete_plant_query : String := "DELETE FROM Plant WHERE Plant_id = ?,"

/-- The literal query string of `delete_plot` in the source. -/
def delete_plot_query : String := "DELETE FROM plots WHERE plot_id = ?,"

/-- The literal query string of `delete_fertilizer` in the source. -/
def delete_fertilizer_query : String := "DELETE FROM fertilizer WHERE fertilizer_id = ?,"

/-- SQLite's grammar for the single-equality DELETE statements used here:
`DELETE FROM <table> WHERE <column> = ?` with nothing after the
placeholder.  A trailing comma is not part of any SQLite statement, so
`cursor.execute` raises `sqlite3.OperationalError` without touching the
table. -/
def wellFormedDeleteWhereEq (tbl col q : String) : Bool :=
  q == "DELETE FROM " ++ tbl ++ " WHERE " ++ col ++ " = ?"

/-- Source `delete_plant(Plant_id)`: executes `delete_plant_query`.  If the
statement parses, every matching row is deleted and the change committed;
a syntactically invalid statement raises before any deletion. -/
def delete_plant (db : DbState) (pid : Nat) : Except String DbState :=
  if wellFormedDeleteWhereEq "Plant" "Plant_id" delete_plant_query then
    Except.ok { db with Plant := db.Plant.filter (fun r => !(r.Plant_id == pid)) }
  else
    Except.error "sqlite3.OperationalError: near \x22,\x22: syntax error"

/-- Source `delete_plot(plot_id)`: executes `delete_plot_query`. -/
def delete_plot (db : DbState) (pid : Nat) : Except String DbState :=
  if wellFormedDeleteWhereEq "plots" "plot_id" delete_plot_query then
    Except.ok { db with plots := db.plots.filter (fun r => !(r.plot_id == pid)) }
  else
    Except.error "sqlite3.OperationalError: near \x22,\x22: syntax error"

/-- Source `delete_fertilizer(fertilizer_id)`: executes `delete_fertilizer_query`. -/
def delete_fertilizer (db : DbState) (fid : Nat) : Except String DbState :=
  if wellFormedDeleteWhereEq "fertilizer" "fertilizer_id" delete_fertilizer_query then
    Except.ok { db with
      fertilizer := db.fertilizer.filter (fun r => !(r.fertilizer_id == fid)) }
  else
    Except.error "sqlite3.OperationalError: near \x22,\x22: syntax error"

end PlantsDatabase

/-!
## The HTTP layer (`Plants_api.py`)

The handlers are modelled as functions from the database state and the
request data to the resulting state and an `ApiResult`.  A raised
`RequestError` is routed through the registered
`handle_invalid_usage` error handler, which calls
`RequestError.to_response`; any other Python exception escapes the
handler unhandled (`ApiResult.pythonError`), so no record is created and
no JSON record body is returned.
-/

/-- The parsed form data of a request, `request.form`: field name to
string value. -/
structure Form where
  fields : List (String × String)
deriving Repr, DecidableEq

/-- Membership test `parameter in request.form`. -/
def Form.has (f : Form) (k : String) : Bool :=
  f.fields.any (fun kv => kv.1 == k)

/-- Lookup `request.form[k]` (only evaluated after a presence check in the
source). -/
def Form.get (f : Form) (k : String) : String :=
  (((f.fields.find? (fun kv => kv.1 == k))).map Prod.snd).getD ""

/-- A JSON document as produced by `jsonify`. -/
inductive Json where
  | obj (kvs : List (String × Value))
  | arr (elems : List DbRecord)
  | null
deriving Repr, DecidableEq

/-- Result `jsonify` applied to a dict-or-None value. -/
def jsonifyOpt (r : Option DbRecord) : Json :=
  match r with
  | some rec => Json.obj rec
  | none => Json.null

/-- The outcome of one handled request: either an HTTP response with a
status code and JSON body, or an unhandled Python exception (the message
of the `TypeError` / `sqlite3` error that escaped the handler). -/
inductive ApiResult where
  | response (status : Nat) (body : Json)
  | pythonError (message : String)
deriving Repr, DecidableEq

/-- Source class `RequestError(Exception)`: carries `str(status_code)` and
the error message.  The status is modelled as the numeric code it prints
to. -/
structure RequestError where
  status_code : Nat
  error_message : String
deriving Repr, DecidableEq

/-- Source `RequestError.to_response`:
`jsonify({'error': self.error_message})` with `response.status` set from
the stored code, as delivered by the `handle_invalid_usage` error
handler. -/
def RequestError.to_response (e : RequestError) : ApiResult :=
  ApiResult.response e.status_code (Json.obj [("error", Value.text e.error_message)])

/-- Python call semantics for `PlantsDatabase.insert_plot`, which declares
exactly the positional parameters `(sunlight, pH, fertilizer_type)` and no
defaults: a call with any other number of positional arguments raises
`TypeError` before the method body runs.  Form values are strings; SQLite
INTEGER column affinity stores an integer-shaped `pH` string as an
integer, modelled by `String.toInt?` (the non-integer case never arises
below: no API call site supplies three arguments at all). -/
def insert_plot_call (db : DbState) (args : List String) :
    Except String (DbState × Option DbRecord) :=
  match args with
  | [sunlight, pH, fertilizer_type] =>
      PlantsDatabase.insert_plot db sunlight (pH.toInt?.getD 0) fertilizer_type
  | _ =>
      Except.error
        "TypeError: insert_plot() called with wrong number of positional arguments"

/-- Python call semantics for `PlantsDatabase.insert_plant`, which
declares exactly the positional parameters
`(name, pH, fertilizer_type, sunlight)` and no defaults. -/
def insert_plant_call (db : DbState) (args : List String) :
    Except String (DbState × Option DbRecord) :=
  match args with
  | [name, pH, fertilizer_type, sunlight] =>
      PlantsDatabase.insert_plant db name (pH.toInt?.getD 0) fertilizer_type sunlight
  | _ =>
      Except.error
        "TypeError: insert_plant() called with wrong number of positional arguments"

/-- Required form parameters of `PlotsView.post`, in the order the source
iterates over them. -/
def plots_required_params : List String := ["sunlight", "pH"]

/-- Required form parameters of `PlantsView.post`, in the order the source
iterates over them. -/
def plants_required_params : List String := ["plant", "pH", "sunlight"]

/-- The `for parameter in (...)` presence loop of the POST handlers: the
first required parameter absent from the form, if any. -/
def firstMissingParam (form : Form) (params : List String) : Option String :=
  params.find? (fun p => !(form.has p))

namespace PlotsView

/-- Source `PlotsView.get`: all plots as a JSON array when `plot_id` is
`None`, otherwise the plot looked up by id, or
`RequestError(404, 'plot not found')`. -/
def get (db : DbState) (plot_id : Option Nat) : ApiResult :=
  match plot_id with
  | none => ApiResult.response 200 (Json.arr (PlantsDatabase.get_all_plots db))
  | some pid =>
    match PlantsDatabase.get_plot_by_id db pid with
    | some plot => ApiResult.response 200 (Json.obj plot)
    | none => (RequestError.mk 404 "plot not found").to_response

/-- Source `PlotsView.post`: checks `sunlight` and `pH` for presence
(raising `RequestError(422, 'parameter ... required')` at the first absent
one), then calls `insert_plot` with the two positional arguments
`request.form['sunlight'], request.form['pH']`. -/
def post (db : DbState) (form : Form) : DbState × ApiResult :=
  match firstMissingParam form plots_required_params with
  | some p =>
      (db, (RequestError.mk 422 ("parameter " ++ p ++ " required")).to_response)
  | none =>
    match insert_plot_call db [form.get "sunlight", form.get "pH"] with
    | Except.ok (db', plot) => (db', ApiResult.response 200 (jsonifyOpt plot))
    | Except.error e => (db, ApiResult.pythonError e)

/-- Source `PlotsView.delete`: 404 when the id is absent, otherwise
`delete_plot` and a success message. -/
def delete (db : DbState) (plot_id : Nat) : DbState × ApiResult :=
  match PlantsDatabase.get_plot_by_id db plot_id with
  | none => (db, (RequestError.mk 404 "plot not found").to_response)
  | some _ =>
    match PlantsDatabase.delete_plot db plot_id with
    | Except.ok db' =>
        (db', ApiResult.response 200
          (Json.obj [("message", Value.text "plot deleted successfully")]))
    | Except.error e => (db, ApiResult.pythonError e)

end PlotsView

namespace PlantsView

/-- Source `PlantsView.get` (the last of the three identical definitions
of the class stands): all plants as a JSON array when `plant_id` is
`None`, otherwise the plant looked up by id, or
`RequestError(404, 'plant not found')`. -/
def get (db : DbState) (plant_id : Option Nat) : ApiResult :=
  match plant_id with
  | none => ApiResult.response 200 (Json.arr (PlantsDatabase.get_all_plants db))
  | some pid =>
    match PlantsDatabase.get_plant_by_id db pid with
    | some plant => ApiResult.response 200 (Json.obj plant)
    | none => (RequestError.mk 404 "plant not found").to_response

/-- Source `PlantsView.post`: checks `plant`, `pH` and `sunlight` for
presence (raising `RequestError(422, 'parameter ... required')` at the
first absent one), then calls `insert_plant` with the three positional
arguments `request.form['plant'], request.form['pH'],
request.form['sunlight']`. -/
def post (db : DbState) (form : Form) : DbState × ApiResult :=
  match firstMissingParam form plants_required_params with
  | some p =>
      (db, (RequestError.mk 422 ("parameter " ++ p ++ " required")).to_response)
  | none =>
    match insert_plant_call db
        [form.get "plant", form.get "pH", form.get "sunlight"] with
    | Except.ok (db', plant) => (db', ApiResult.response 200 (jsonifyOpt plant))
    | Except.error e => (db, ApiResult.pythonError e)

/-- Source `PlantsView.delete`: 404 when the id is absent, otherwise
`delete_plant` and a success message. -/
def delete (db : DbState) (plant_id : Nat) : DbState × ApiResult :=
  match PlantsDatabase.get_plant_by_id db plant_id with
  | none => (db, (RequestError.mk 404 "plant not found").to_response)
  | some _ =>
    match PlantsDatabase.delete_plant db plant_id with
    | Except.ok db' =>
        (db', ApiResult.response 200
          (Json.obj [("message", Value.text "plant deleted successfully")]))
    | Except.error e => (db, ApiResult.pythonError e)

end PlantsView

/-!
## Schema initialization (`PlantsDatabase.__init__` and `create_tables`)
-/

/-- A FOREIGN KEY clause of a CREATE TABLE statement. -/
structure ForeignKey where
  column : String
  refTable : String
  refColumn : String
deriving Repr, DecidableEq

/-- One CREATE TABLE statement: table name, columns in order, the
primary-key column, UNIQUE columns, FOREIGN KEY clauses. -/
structure TableDef where
  name : String
  columns : List String
  primaryKey : String
  uniqueColumns : List String
  foreignKeys : List ForeignKey
deriving Repr, DecidableEq

/-- Source `create_tables`: the three CREATE TABLE statements executed and
committed, in order. -/
def create_tables_schema : List TableDef :=
  [ { name := "fertilizer",
      columns := ["fertilizer_id", "fertilizer_type"],
      primaryKey := "fertilizer_id",
      uniqueColumns := ["fertilizer_type"],
      foreignKeys := [] },
    { name := "plots",
      columns := ["plot_id", "sunlight", "pH", "fertilizer_type"],
      primaryKey := "plot_id",
      uniqueColumns := ["sunlight"],
      foreignKeys := [⟨"fertilizer_type", "fertilizer", "fertilizer_type"⟩] },
    { name := "Plant",
      columns := ["Plant_id", "name", "pH", "fertilizer_type", "sunlight"],
      primaryKey := "Plant_id",
      uniqueColumns := ["name"],
      foreignKeys := [⟨"fertilizer_type", "fertilizer", "fertilizer_type"⟩,
                      ⟨"sunlight", "plots", "sunlight"⟩] } ]

/-- Source `PlantsDatabase.__init__`: it tests
`os.path.isfile(sqlite_filename)` before connecting, and runs
`create_tables` exactly when the file did not exist.  The result is the
list of tables created during initialization. -/
def PlantsDatabase_init (fileExists : Bool) : List TableDef :=
  if fileExists then [] else create_tables_schema

/-!
## Concrete states, the uniqueness invariant, and reachability
-/

/-- A small populated database used to instantiate the quantified
theorems: one fertilizer, one plot and one plant, all mutually
consistent with the foreign keys, after a last successful insert with
rowid 1. -/
def sampleDb : DbState :=
  { fertilizer := [{ fertilizer_id := 1, fertilizer_type := "potassium" }],
    plots := [{ plot_id := 1, sunlight := "full", pH := 7,
                fertilizer_type := "potassium" }],
    Plant := [{ Plant_id := 1, name := "Roses", pH := 7,
                fertilizer_type := "potassium", sunlight := "full" }],
    lastInsertRowid := 1 }

/-- A database in which two plots share the pH value 7 and the fertilizer
type `potassium`, and two plants share the fertilizer type `potassium`. -/
def multiMatchDb : DbState :=
  { fertilizer := [{ fertilizer_id := 1, fertilizer_type := "potassium" },
                   { fertilizer_id := 2, fertilizer_type := "nitrogen" }],
    plots := [{ plot_id := 1, sunlight := "full", pH := 7,
                fertilizer_type := "potassium" },
              { plot_id := 2, sunlight := "partial", pH := 7,
                fertilizer_type := "potassium" }],
    Plant := [{ Plant_id := 1, name := "Roses", pH := 7,
                fertilizer_type := "potassium", sunlight := "full" },
              { Plant_id := 2, name := "Peony", pH := 8,
                fertilizer_type := "potassium", sunlight := "partial" }],
    lastInsertRowid := 2 }

/-- The state reached from a fresh database by
`insert_fertilizer('potassium')` followed by
`insert_fertilizer('nitrogen')`. -/
def twoFertDb : DbState :=
  (PlantsDatabase.insert_fertilizer
    (PlantsDatabase.insert_fertilizer emptyDb "potassium").1 "nitrogen").1

/-- The spec's uniqueness invariant: the values of each UNIQUE column are
pairwise distinct within its table. -/
def UniqueKeys (db : DbState) : Prop :=
  (db.fertilizer.map (fun r => r.fertilizer_type)).Nodup ∧
  (db.plots.map (fun r => r.sunlight)).Nodup ∧
  (db.Plant.map (fun r => r.name)).Nodup

/-- Database states reachable from a freshly created database by any
sequence of the data-access operations that modify state (the `get_*`
operations do not).  An operation that raises leaves the committed state
unchanged, so only `Except.ok` outcomes produce new states. -/
inductive Reachable : DbState → Prop where
  | init : Reachable emptyDb
  | insFert (db : DbState) (t : String) :
      Reachable db → Reachable (PlantsDatabase.insert_fertilizer db t).1
  | insPlot (db db' : DbState) (s t : String) (ph : Int) (rec : Option DbRecord) :
      Reachable db →
      PlantsDatabase.insert_plot db s ph t = Except.ok (db', rec) →
      Reachable db'
  | insPlant (db db' : DbState) (n t s : String) (ph : Int) (rec : Option DbRecord) :
      Reachable db →
      PlantsDatabase.insert_plant db n ph t s = Except.ok (db', rec) →
      Reachable db'
  | delPlant (db db' : DbState) (i : Nat) :
      Reachable db → PlantsDatabase.delete_plant db i = Except.ok db' →
      Reachable db'
  | delPlot (db db' : DbState) (i : Nat) :
      Reachable db → PlantsDatabase.delete_plot db i = Except.ok db' →
      Reachable db'
  | delFert (db db' : DbState) (i : Nat) :
      Reachable db → PlantsDatabase.delete_fertilizer db i = Except.ok db' →
      Reachable db'

/-- The state `insert_plant('Tulip', 7, 'potassium', 'full')` produces
from `sampleDb`: the name is new and both foreign keys resolve, so the
row is inserted with rowid 2. -/
def tulipDb : DbState :=
  { fertilizer := sampleDb.fertilizer,
    plots := sampleDb.plots,
    Plant := sampleDb.Plant ++
      [{ Plant_id := 2, name := "Tulip", pH := 7,
         fertilizer_type := "potassium", sunlight := "full" }],
    lastInsertRowid := 2 }

/-!
## Claim C1 — duplicate-key inserts
-/

/-- C1 is false as stated: with fertilizers `potassium` (id 1) then
`nitrogen` (id 2) inserted on this connection, `insert_fertilizer` of the
already-present `potassium` adds no row but returns the `nitrogen` record
— the connection's `last_insert_rowid` still points at the latest
successful insert — not the existing `potassium` record. -/
theorem c1_duplicate_insert_returns_other_record :
    (PlantsDatabase.insert_fertilizer twoFertDb "potassium").1 = twoFertDb ∧
    (PlantsDatabase.insert_fertilizer twoFertDb "potassium").2 =
      some [("fertilizer_id", Value.int 2),
            ("fertilizer_type", Value.text "nitrogen")] ∧
    PlantsDatabase.get_fertilizer_by_type twoFertDb "potassium" =
      some [("fertilizer_type", Value.text "potassium"),
            ("fertilizer_id", Value.int 1)] := by
  decide

/-- C1 (amended): inserting with an already-present unique key adds no row
(the state is unchanged when the referenced fertilizer also exists) and
never errors; `insert_plot` returns the existing plot's `plot_id` and
`sunlight`; but `insert_fertilizer` and `insert_plant` return the record
found by looking up the connection's `last_insert_rowid`, which need not
be the record with the given key. -/
theorem c1_insert_duplicate_key (db : DbState) (t s n : String) (ph : Int)
    (hf : db.fertilizer.any (fun r => r.fertilizer_type == t) = true)
    (hp : db.plots.any (fun r => r.sunlight == s) = true)
    (hn : db.Plant.any (fun r => r.name == n) = true) :
    PlantsDatabase.insert_fertilizer db t =
      (db, PlantsDatabase.get_fertilizer_by_id db db.lastInsertRowid) ∧
    PlantsDatabase.insert_plot db s ph t =
      Except.ok (db, PlantsDatabase.get_plots_by_sunlight db s) ∧
    (PlantsDatabase.get_plots_by_sunlight db s).isSome = true ∧
    PlantsDatabase.insert_plant db n ph t s =
      Except.ok (db, PlantsDatabase.get_plant_by_id db db.lastInsertRowid) := by
  have h1 : PlantsDatabase.insert_fertilizer db t =
      (db, PlantsDatabase.get_fertilizer_by_id db db.lastInsertRowid) := by
    simp [PlantsDatabase.insert_fertilizer, hf]
  refine ⟨h1, ?_, ?_, ?_⟩
  · simp [PlantsDatabase.insert_plot, h1, hp]
  · rcases List.any_eq_true.mp hp with ⟨r, hr, hpr⟩
    simp [PlantsDatabase.get_plots_by_sunlight, List.head?_isSome]
    exact ⟨r, hr, by simpa using hpr⟩
  · simp [PlantsDatabase.insert_plant, hn]

/-- Witness for `c1_insert_duplicate_key` at the populated `sampleDb`. -/
theorem c1_insert_duplicate_key_witness :
    PlantsDatabase.insert_fertilizer sampleDb "potassium" =
      (sampleDb, PlantsDatabase.get_fertilizer_by_id sampleDb sampleDb.lastInsertRowid) ∧
    PlantsDatabase.insert_plot sampleDb "full" 7 "potassium" =
      Except.ok (sampleDb, PlantsDatabase.get_plots_by_sunlight sampleDb "full") ∧
    (PlantsDatabase.get_plots_by_sunlight sampleDb "full").isSome = true ∧
    PlantsDatabase.insert_plant sampleDb "Roses" 7 "potassium" "full" =
      Except.ok (sampleDb, PlantsDatabase.get_plant_by_id sampleDb sampleDb.lastInsertRowid) :=
  c1_insert_duplicate_key sampleDb "potassium" "full" "Roses" 7
    (by decide) (by decide) (by decide)

/-!
## Claim C3 — the delete operations
-/

/-- C3 is wrong about the code: every delete query in the source carries a
trailing comma after the placeholder (`... = ?,`), which is not a valid
SQLite statement, so `cursor.execute` raises `sqlite3.OperationalError`
on every call — present id or not — and no row is ever removed. -/
theorem c3_delete_always_raises (db : DbState) (i : Nat) :
    PlantsDatabase.delete_plant db i =
      Except.error "sqlite3.OperationalError: near \x22,\x22: syntax error" ∧
    PlantsDatabase.delete_plot db i =
      Except.error "sqlite3.OperationalError: near \x22,\x22: syntax error" ∧
    PlantsDatabase.delete_fertilizer db i =
      Except.error "sqlite3.OperationalError: near \x22,\x22: syntax error" :=
  ⟨rfl, rfl, rfl⟩

/-!
## Claim C2 — POST with all required fields
-/

/-- C2 is wrong about the code: even with every required form field
present, `PlotsView.post` passes `insert_plot` only two positional
arguments where its signature declares three, and `PlantsView.post`
passes `insert_plant` only three where its signature declares four, so
both calls raise `TypeError`; no record is created and no record JSON is
returned. -/
theorem c2_post_all_fields_raises_typeerror (db : DbState) (form : Form)
    (hs : form.has "sunlight" = true) (hph : form.has "pH" = true)
    (hpl : form.has "plant" = true) :
    PlotsView.post db form =
      (db, ApiResult.pythonError
        "TypeError: insert_plot() called with wrong number of positional arguments") ∧
    PlantsView.post db form =
      (db, ApiResult.pythonError
        "TypeError: insert_plant() called with wrong number of positional arguments") := by
  constructor
  · simp [PlotsView.post, firstMissingParam, plots_required_params, hs, hph,
      insert_plot_call]
  · simp [PlantsView.post, firstMissingParam, plants_required_params, hs, hph,
      hpl, insert_plant_call]

/-- Witness for `c2_post_all_fields_raises_typeerror` on a form carrying
all the fields either POST handler checks for. -/
theorem c2_post_all_fields_raises_typeerror_witness :
    PlotsView.post sampleDb
        { fields := [("plant", "Tulip"), ("pH", "7"), ("sunlight", "full")] } =
      (sampleDb, ApiResult.pythonError
        "TypeError: insert_plot() called with wrong number of positional arguments") ∧
    PlantsView.post sampleDb
        { fields := [("plant", "Tulip"), ("pH", "7"), ("sunlight", "full")] } =
      (sampleDb, ApiResult.pythonError
        "TypeError: insert_plant() called with wrong number of positional arguments") :=
  c2_post_all_fields_raises_typeerror sampleDb
    { fields := [("plant", "Tulip"), ("pH", "7"), ("sunlight", "full")] }
    (by decide) (by decide) (by decide)

/-!
## Claim C4 — get-by-id record shape
-/

/-- C4 is false as stated: in `sampleDb` the plot with id 1 has sunlight
`full`, pH 7 and fertilizer `potassium`, yet `get_plot_by_id` returns a
record with the single key `plot_id` — its SELECT list names only the
primary-key column — and likewise `get_plant_by_id` returns only
`Plant_id`. -/
theorem c4_get_by_id_record_lacks_fields :
    PlantsDatabase.get_plot_by_id sampleDb 1 = some [("plot_id", Value.int 1)] ∧
    ((PlantsDatabase.get_plot_by_id sampleDb 1).getD []).any
      (fun kv => kv.1 == "sunlight") = false ∧
    PlantsDatabase.get_plant_by_id sampleDb 1 = some [("Plant_id", Value.int 1)] ∧
    ((PlantsDatabase.get_plant_by_id sampleDb 1).getD []).any
      (fun kv => kv.1 == "name") = false := by
  decide

/-- C4 (amended): for an id present in the database,
`get_<entity>_by_id` returns a record containing only the primary-key
column mapped to that id (`plot_id` for plots, `Plant_id` for plants),
and it returns `None` exactly when the id is absent. -/
theorem c4_get_by_id_projects_only_id (db : DbState) (pid qid : Nat) :
    (PlantsDatabase.get_plot_by_id db pid = none ↔
      ∀ r ∈ db.plots, r.plot_id ≠ pid) ∧
    (db.plots.any (fun r => r.plot_id == pid) = true →
      PlantsDatabase.get_plot_by_id db pid = some [("plot_id", Value.int pid)]) ∧
    (PlantsDatabase.get_plant_by_id db qid = none ↔
      ∀ r ∈ db.Plant, r.Plant_id ≠ qid) ∧
    (db.Plant.any (fun r => r.Plant_id == qid) = true →
      PlantsDatabase.get_plant_by_id db qid = some [("Plant_id", Value.int qid)]) := by
  refine ⟨?_, ?_, ?_, ?_⟩
  · simp [PlantsDatabase.get_plot_by_id, List.head?_eq_none_iff,
      List.filter_eq_nil_iff]
  · intro h
    rcases List.any_eq_true.mp h with ⟨r, hr, hpr⟩
    have hne : db.plots.filter (fun x => x.plot_id == pid) ≠ [] := by
      intro he
      have hmem : r ∈ db.plots.filter (fun x => x.plot_id == pid) :=
        List.mem_filter.mpr ⟨hr, hpr⟩
      simp [he] at hmem
    cases hh : (db.plots.filter (fun x => x.plot_id == pid)).head? with
    | none => exact absurd (List.head?_eq_none_iff.mp hh) hne
    | some r' =>
      have hmem : r' ∈ db.plots.filter (fun x => x.plot_id == pid) :=
        List.mem_of_mem_head? (by rw [hh]; exact rfl)
      have hid : r'.plot_id = pid := by simpa using List.of_mem_filter hmem
      simp [PlantsDatabase.get_plot_by_id, hh, hid]
  · simp [PlantsDatabase.get_plant_by_id, List.head?_eq_none_iff,
      List.filter_eq_nil_iff]
  · intro h
    rcases List.any_eq_true.mp h with ⟨r, hr, hpr⟩
    have hne : db.Plant.filter (fun x => x.Plant_id == qid) ≠ [] := by
      intro he
      have hmem : r ∈ db.Plant.filter (fun x => x.Plant_id == qid) :=
        List.mem_filter.mpr ⟨hr, hpr⟩
      simp [he] at hmem
    cases hh : (db.Plant.filter (fun x => x.Plant_id == qid)).head? with
    | none => exact absurd (List.head?_eq_none_iff.mp hh) hne
    | some r' =>
      have hmem : r' ∈ db.Plant.filter (fun x => x.Plant_id == qid) :=
        List.mem_of_mem_head? (by rw [hh]; exact rfl)
      have hid : r'.Plant_id = qid := by simpa using List.of_mem_filter hmem
      simp [PlantsDatabase.get_plant_by_id, hh, hid]

/-- Witness for `c4_get_by_id_projects_only_id` at `sampleDb`, id 1. -/
theorem c4_get_by_id_projects_only_id_witness :
    PlantsDatabase.get_plot_by_id sampleDb 1 = some [("plot_id", Value.int 1)] ∧
    PlantsDatabase.get_plant_by_id sampleDb 1 = some [("Plant_id", Value.int 1)] :=
  ⟨(c4_get_by_id_projects_only_id sampleDb 1 1).2.1 (by decide),
   (c4_get_by_id_projects_only_id sampleDb 1 1).2.2.2 (by decide)⟩

/-!
## Claim C5 — GET on a nonexistent id
-/

/-- C5: a GET for a plot id or plant id with no matching row raises
`RequestError(404, ...)`, which the registered error handler turns into
the JSON body with the single key `error` and status 404. -/
theorem c5_get_nonexistent_id_404 (db : DbState) (pid qid : Nat)
    (hp : db.plots.any (fun r => r.plot_id == pid) = false)
    (hq : db.Plant.any (fun r => r.Plant_id == qid) = false) :
    PlotsView.get db (some pid) =
      ApiResult.response 404 (Json.obj [("error", Value.text "plot not found")]) ∧
    PlantsView.get db (some qid) =
      ApiResult.response 404 (Json.obj [("error", Value.text "plant not found")]) := by
  have h1 : PlantsDatabase.get_plot_by_id db pid = none := by
    simp [PlantsDatabase.get_plot_by_id, List.head?_eq_none_iff,
      List.filter_eq_nil_iff]
    intro r hr
    simpa using List.any_eq_false.mp hp r hr
  have h2 : PlantsDatabase.get_plant_by_id db qid = none := by
    simp [PlantsDatabase.get_plant_by_id, List.head?_eq_none_iff,
      List.filter_eq_nil_iff]
    intro r hr
    simpa using List.any_eq_false.mp hq r hr
  constructor
  · simp [PlotsView.get, h1, RequestError.to_response]
  · simp [PlantsView.get, h2, RequestError.to_response]

/-- Witness for `c5_get_nonexistent_id_404`: `sampleDb` has no row with
id 2 in either table. -/
theorem c5_get_nonexistent_id_404_witness :
    PlotsView.get sampleDb (some 2) =
      ApiResult.response 404 (Json.obj [("error", Value.text "plot not found")]) ∧
    PlantsView.get sampleDb (some 2) =
      ApiResult.response 404 (Json.obj [("error", Value.text "plant not found")]) :=
  c5_get_nonexistent_id_404 sampleDb 2 2 (by decide) (by decide)

/-!
## Claim C6 — POST with a missing required field
-/

/-- C6: when a required form field is absent, the POST handlers stop at
the first absent field `p` of their checked tuple and yield status 422
with body `error = parameter p required`, leaving the database untouched;
and whenever at least one required field is absent, such a first absent
field exists. -/
theorem c6_post_missing_param (db : DbState) (form : Form) (p q : String) :
    (firstMissingParam form plots_required_params = some p →
      p ∈ plots_required_params ∧ form.has p = false ∧
      PlotsView.post db form =
        (db, ApiResult.response 422
          (Json.obj [("error", Value.text ("parameter " ++ p ++ " required"))]))) ∧
    ((¬ ∀ r ∈ plots_required_params, form.has r = true) →
      (firstMissingParam form plots_required_params).isSome = true) ∧
    (firstMissingParam form plants_required_params = some q →
      q ∈ plants_required_params ∧ form.has q = false ∧
      PlantsView.post db form =
        (db, ApiResult.response 422
          (Json.obj [("error", Value.text ("parameter " ++ q ++ " required"))]))) ∧
    ((¬ ∀ r ∈ plants_required_params, form.has r = true) →
      (firstMissingParam form plants_required_params).isSome = true) := by
  refine ⟨?_, ?_, ?_, ?_⟩
  · intro h
    refine ⟨List.mem_of_find?_eq_some h, ?_, ?_⟩
    · simpa using List.find?_some h
    · simp [PlotsView.post, h, RequestError.to_response]
  · intro h
    push_neg at h
    rcases h with ⟨r, hr, hnr⟩
    have hfalse : form.has r = false := by
      revert hnr; cases form.has r <;> simp
    rw [firstMissingParam, List.find?_isSome]
    exact ⟨r, hr, by simp [hfalse]⟩
  · intro h
    refine ⟨List.mem_of_find?_eq_some h, ?_, ?_⟩
    · simpa using List.find?_some h
    · simp [PlantsView.post, h, RequestError.to_response]
  · intro h
    push_neg at h
    rcases h with ⟨r, hr, hnr⟩
    have hfalse : form.has r = false := by
      revert hnr; cases form.has r <;> simp
    rw [firstMissingParam, List.find?_isSome]
    exact ⟨r, hr, by simp [hfalse]⟩

/-- Witness for `c6_post_missing_param`: a form carrying only `sunlight`,
so the plots handler misses `pH` and the plants handler misses `plant`. -/
theorem c6_post_missing_param_witness :
    ("pH" ∈ plots_required_params ∧
      Form.has { fields := [("sunlight", "full")] } "pH" = false ∧
      PlotsView.post sampleDb { fields := [("sunlight", "full")] } =
        (sampleDb, ApiResult.response 422
          (Json.obj [("error", Value.text ("parameter " ++ "pH" ++ " required"))]))) ∧
    ("plant" ∈ plants_required_params ∧
      Form.has { fields := [("sunlight", "full")] } "plant" = false ∧
      PlantsView.post sampleDb { fields := [("sunlight", "full")] } =
        (sampleDb, ApiResult.response 422
          (Json.obj [("error", Value.text ("parameter " ++ "plant" ++ " required"))]))) :=
  ⟨(c6_post_missing_param sampleDb { fields := [("sunlight", "full")] }
      "pH" "plant").1 (by decide),
   (c6_post_missing_param sampleDb { fields := [("sunlight", "full")] }
      "pH" "plant").2.2.1 (by decide)⟩

/-!
## Claim C7 — fertilizer creation on plot and plant inserts
-/

/-- After `insert_fertilizer`, the given type is present in the
fertilizer table (it was either already there or just appended). -/
theorem insert_fertilizer_has_type (db : DbState) (t : String) :
    ((PlantsDatabase.insert_fertilizer db t).1).fertilizer.any
      (fun r => r.fertilizer_type == t) = true := by
  by_cases h : db.fertilizer.any (fun r => r.fertilizer_type == t) = true
  · simp [PlantsDatabase.insert_fertilizer, h]
  · simp [PlantsDatabase.insert_fertilizer, h, List.any_append]

/-- C7 is false as stated: in `sampleDb` the plant name `Roses` already
exists, so `insert_plant` with the nonexistent fertilizer `bone meal`
succeeds (the row is ignored before any foreign-key check) — yet no
`bone meal` fertilizer is created, neither before nor as part of the
operation. -/
theorem c7_plant_insert_creates_no_fertilizer :
    PlantsDatabase.insert_plant sampleDb "Roses" 7 "bone meal" "full" =
      Except.ok (sampleDb, some [("Plant_id", Value.int 1)]) ∧
    sampleDb.fertilizer.any (fun r => r.fertilizer_type == "bone meal") = false :=
  And.intro rfl (by decide)

/-- C7 (amended): `insert_plot` creates the referenced fertilizer via
insert-or-ignore and never errors, so after it the fertilizer exists;
`insert_plant` creates no fertilizer row at all — a successful call
leaves the fertilizer table unchanged, and only when the plant name is
new does success imply (via the enforced foreign key) that the referenced
fertilizer already existed. -/
theorem c7_fertilizer_reference (db db' : DbState) (s n t : String) (ph : Int)
    (rec : Option DbRecord) :
    (∀ e, PlantsDatabase.insert_plot db s ph t ≠ Except.error e) ∧
    (∀ db2 r2, PlantsDatabase.insert_plot db s ph t = Except.ok (db2, r2) →
      db2.fertilizer.any (fun r => r.fertilizer_type == t) = true) ∧
    (PlantsDatabase.insert_plant db n ph t s = Except.ok (db', rec) →
      db'.fertilizer = db.fertilizer) ∧
    (PlantsDatabase.insert_plant db n ph t s = Except.ok (db', rec) →
      db.Plant.any (fun r => r.name == n) = false →
      db'.fertilizer.any (fun r => r.fertilizer_type == t) = true) := by
  have hft := insert_fertilizer_has_type db t
  refine ⟨?_, ?_, ?_, ?_⟩
  · intro e he
    by_cases h : ((PlantsDatabase.insert_fertilizer db t).1).plots.any
        (fun r => r.sunlight == s) = true
    · simp [PlantsDatabase.insert_plot, h] at he
    · simp [PlantsDatabase.insert_plot, h, hft] at he
  · intro db2 r2 hok
    by_cases h : ((PlantsDatabase.insert_fertilizer db t).1).plots.any
        (fun r => r.sunlight == s) = true
    · simp [PlantsDatabase.insert_plot, h] at hok
      rw [← hok.1]
      exact hft
    · simp [PlantsDatabase.insert_plot, h, hft] at hok
      rw [← hok.1]
      exact hft
  · intro hok
    by_cases h : db.Plant.any (fun r => r.name == n) = true
    · simp [PlantsDatabase.insert_plant, h] at hok
      rw [← hok.1]
    · by_cases h2 : (db.fertilizer.any (fun r => r.fertilizer_type == t)
          && db.plots.any (fun r => r.sunlight == s)) = true
      · simp [PlantsDatabase.insert_plant, h, h2] at hok
        rw [← hok.1]
      · simp [PlantsDatabase.insert_plant, h, h2] at hok
  · intro hok hnew
    by_cases h2 : (db.fertilizer.any (fun r => r.fertilizer_type == t)
        && db.plots.any (fun r => r.sunlight == s)) = true
    · simp [PlantsDatabase.insert_plant, hnew, h2] at hok
      rw [← hok.1]
      simp only [Bool.and_eq_true] at h2
      exact h2.1
    · simp [PlantsDatabase.insert_plant, hnew, h2] at hok

/-- Witness for `c7_fertilizer_reference`: inserting the new plant
`Tulip` into `sampleDb` succeeds and the referenced `potassium`
fertilizer is present afterwards. -/
theorem c7_fertilizer_reference_witness :
    tulipDb.fertilizer.any (fun r => r.fertilizer_type == "potassium") = true :=
  (c7_fertilizer_reference sampleDb tulipDb "full" "Tulip" "potassium" 7
      (some [("Plant_id", Value.int 2)])).2.2.2 rfl (by decide)

/-!
## Claim C8 — uniqueness invariant
-/

/-- Appending a row whose key value is not yet present preserves
distinctness of the key column. -/
theorem nodup_key_append {α : Type} (l : List α) (f : α → String) (t : String)
    (hn : (l.map f).Nodup) (ha : l.any (fun r => f r == t) = false) (x : α)
    (hx : f x = t) : ((l ++ [x]).map f).Nodup := by
  have hnot : t ∉ l.map f := by
    simp only [List.any_eq_false] at ha
    intro hmem
    rcases List.mem_map.mp hmem with ⟨r, hr, hrt⟩
    exact ha r hr (by simp [hrt])
  rw [List.map_append, List.map_singleton, hx, ← List.concat_eq_append]
  exact List.Nodup.concat hnot hn

/-- The insert-or-ignore on the fertilizer table preserves the
uniqueness invariant. -/
theorem insert_fertilizer_uniqueKeys (db : DbState) (t : String)
    (h : UniqueKeys db) : UniqueKeys (PlantsDatabase.insert_fertilizer db t).1 := by
  obtain ⟨h1, h2, h3⟩ := h
  by_cases hc : db.fertilizer.any (fun r => r.fertilizer_type == t) = true
  · have heq : (PlantsDatabase.insert_fertilizer db t).1 = db := by
      simp [PlantsDatabase.insert_fertilizer, hc]
    rw [heq]
    exact And.intro h1 (And.intro h2 h3)
  · have hfalse : db.fertilizer.any (fun r => r.fertilizer_type == t) = false := by
      simpa using hc
    have heq : (PlantsDatabase.insert_fertilizer db t).1 =
        { db with
          fertilizer := db.fertilizer ++
            [{ fertilizer_id := nextId (db.fertilizer.map (fun r => r.fertilizer_id)),
               fertilizer_type := t }],
          lastInsertRowid := nextId (db.fertilizer.map (fun r => r.fertilizer_id)) } := by
      simp [PlantsDatabase.insert_fertilizer, hc]
    rw [heq]
    refine And.intro ?_ (And.intro h2 h3)
    exact nodup_key_append db.fertilizer (fun r => r.fertilizer_type) t h1 hfalse _ rfl

/-- A successful `insert_plot` preserves the uniqueness invariant. -/
theorem insert_plot_uniqueKeys (db db' : DbState) (s t : String) (ph : Int)
    (rec : Option DbRecord) (h : UniqueKeys db)
    (hok : PlantsDatabase.insert_plot db s ph t = Except.ok (db', rec)) :
    UniqueKeys db' := by
  have hf := insert_fertilizer_uniqueKeys db t h
  by_cases hc : ((PlantsDatabase.insert_fertilizer db t).1).plots.any
      (fun r => r.sunlight == s) = true
  · simp [PlantsDatabase.insert_plot, hc] at hok
    rw [← hok.1]
    exact hf
  · have hft := insert_fertilizer_has_type db t
    simp [PlantsDatabase.insert_plot, hc, hft] at hok
    rw [← hok.1]
    obtain ⟨f1, f2, f3⟩ := hf
    refine And.intro f1 (And.intro ?_ f3)
    have hfalse : ((PlantsDatabase.insert_fertilizer db t).1).plots.any
        (fun r => r.sunlight == s) = false := by simpa using hc
    exact nodup_key_append _ (fun r : PlotRow => r.sunlight) s f2 hfalse _ rfl

/-- A successful `insert_plant` preserves the uniqueness invariant. -/
theorem insert_plant_uniqueKeys (db db' : DbState) (n t s : String) (ph : Int)
    (rec : Option DbRecord) (h : UniqueKeys db)
    (hok : PlantsDatabase.insert_plant db n ph t s = Except.ok (db', rec)) :
    UniqueKeys db' := by
  obtain ⟨h1, h2, h3⟩ := h
  by_cases hc : db.Plant.any (fun r => r.name == n) = true
  · simp [PlantsDatabase.insert_plant, hc] at hok
    rw [← hok.1]
    exact And.intro h1 (And.intro h2 h3)
  · by_cases h4 : (db.fertilizer.any (fun r => r.fertilizer_type == t)
        && db.plots.any (fun r => r.sunlight == s)) = true
    · simp [PlantsDatabase.insert_plant, hc, h4] at hok
      rw [← hok.1]
      refine And.intro h1 (And.intro h2 ?_)
      have hfalse : db.Plant.any (fun r => r.name == n) = false := by simpa using hc
      exact nodup_key_append _ (fun r : PlantRow => r.name) n h3 hfalse _ rfl
    · simp [PlantsDatabase.insert_plant, hc, h4] at hok

/-- C8: in every database state reachable by any sequence of the
data-access operations, the `fertilizer_type` values, the plot `sunlight`
values and the plant `name` values are each pairwise distinct — every
insert goes through insert-or-ignore on its unique key, and the delete
operations never commit (they raise on their malformed SQL). -/
theorem c8_unique_keys_invariant (db : DbState) (h : Reachable db) :
    UniqueKeys db := by
  induction h with
  | init => exact And.intro List.nodup_nil (And.intro List.nodup_nil List.nodup_nil)
  | insFert db t _ ih => exact insert_fertilizer_uniqueKeys db t ih
  | insPlot db db' s t ph rec _ hok ih =>
      exact insert_plot_uniqueKeys db db' s t ph rec ih hok
  | insPlant db db' n t s ph rec _ hok ih =>
      exact insert_plant_uniqueKeys db db' n t s ph rec ih hok
  | delPlant db db' i _ hok ih =>
      have he : PlantsDatabase.delete_plant db i =
          Except.error "sqlite3.OperationalError: near \x22,\x22: syntax error" := rfl
      rw [he] at hok
      exact Except.noConfusion hok
  | delPlot db db' i _ hok ih =>
      have he : PlantsDatabase.delete_plot db i =
          Except.error "sqlite3.OperationalError: near \x22,\x22: syntax error" := rfl
      rw [he] at hok
      exact Except.noConfusion hok
  | delFert db db' i _ hok ih =>
      have he : PlantsDatabase.delete_fertilizer db i =
          Except.error "sqlite3.OperationalError: near \x22,\x22: syntax error" := rfl
      rw [he] at hok
      exact Except.noConfusion hok

/-- Witness for `c8_unique_keys_invariant` on the state reached by two
inserts from a fresh database. -/
theorem c8_unique_keys_invariant_witness : UniqueKeys twoFertDb :=
  c8_unique_keys_invariant twoFertDb
    (Reachable.insFert (PlantsDatabase.insert_fertilizer emptyDb "potassium").1
      "nitrogen" (Reachable.insFert emptyDb "potassium" Reachable.init))

/-!
## Claim C9 — schema creation on construction
-/

/-- C9: `PlantsDatabase.__init__` runs `create_tables` exactly when the
SQLite file did not exist — creating the `fertilizer`, `plots` and
`Plant` tables with their foreign keys from plots and plants to
`fertilizer(fertilizer_type)` and from plants to `plots(sunlight)` — and
attempts no table creation when the file already exists. -/
theorem c9_init_creates_tables_iff_file_absent :
    PlantsDatabase_init true = [] ∧
    PlantsDatabase_init false = create_tables_schema ∧
    create_tables_schema.map (fun t => t.name) = ["fertilizer", "plots", "Plant"] ∧
    create_tables_schema.map (fun t => t.foreignKeys) =
      [[],
       [{ column := "fertilizer_type", refTable := "fertilizer",
          refColumn := "fertilizer_type" }],
       [{ column := "fertilizer_type", refTable := "fertilizer",
          refColumn := "fertilizer_type" },
        { column := "sunlight", refTable := "plots", refColumn := "sunlight" }]] := by
  decide

/-!
## Claim C10 — the by-attribute queries
-/

/-- C10 is false for plants: with two plants sharing fertilizer
`potassium`, `get_plant_by_fertilzer` returns a single record whose only
key is `fertilizer_type` — it contains no id column at all. -/
theorem c10_plant_by_fertilizer_record_has_no_id :
    PlantsDatabase.get_plant_by_fertilzer multiMatchDb "potassium" =
      some [("fertilizer_type", Value.text "potassium")] ∧
    ((PlantsDatabase.get_plant_by_fertilzer multiMatchDb "potassium").getD []).any
      (fun kv => kv.1 == "Plant_id") = false := by
  decide

/-- C10 (amended): each by-attribute query fetches a single row — the
first match in table order, even when several rows match.
`get_plots_by_pH` and `get_plots_by_fertilizer` return only `plot_id` and
the queried attribute; `get_plant_by_fertilzer` returns only the queried
`fertilizer_type`, with no id column. -/
theorem c10_by_attribute_first_match_projection (db : DbState) (ph : Int)
    (t u : String) :
    (∀ r, (db.plots.filter (fun x => x.pH == ph)).head? = some r →
      PlantsDatabase.get_plots_by_pH db ph =
        some [("plot_id", Value.int r.plot_id), ("pH", Value.int ph)]) ∧
    (∀ r, (db.plots.filter (fun x => x.fertilizer_type == t)).head? = some r →
      PlantsDatabase.get_plots_by_fertilizer db t =
        some [("plot_id", Value.int r.plot_id), ("fertilizer_type", Value.text t)]) ∧
    (db.Plant.any (fun x => x.fertilizer_type == u) = true →
      PlantsDatabase.get_plant_by_fertilzer db u =
        some [("fertilizer_type", Value.text u)]) := by
  refine ⟨?_, ?_, ?_⟩
  · intro r hh
    have hmem : r ∈ db.plots.filter (fun x => x.pH == ph) :=
      List.mem_of_mem_head? (by rw [hh]; exact rfl)
    have hr : r.pH = ph := by simpa using List.of_mem_filter hmem
    simp [PlantsDatabase.get_plots_by_pH, hh, hr]
  · intro r hh
    have hmem : r ∈ db.plots.filter (fun x => x.fertilizer_type == t) :=
      List.mem_of_mem_head? (by rw [hh]; exact rfl)
    have hr : r.fertilizer_type = t := by simpa using List.of_mem_filter hmem
    simp [PlantsDatabase.get_plots_by_fertilizer, hh, hr]
  · intro hany
    rcases List.any_eq_true.mp hany with ⟨r, hrm, hrp⟩
    have hne : db.Plant.filter (fun x => x.fertilizer_type == u) ≠ [] := by
      intro he
      have hmem : r ∈ db.Plant.filter (fun x => x.fertilizer_type == u) :=
        List.mem_filter.mpr ⟨hrm, hrp⟩
      simp [he] at hmem
    cases hh : (db.Plant.filter (fun x => x.fertilizer_type == u)).head? with
    | none => exact absurd (List.head?_eq_none_iff.mp hh) hne
    | some s =>
      have hmem : s ∈ db.Plant.filter (fun x => x.fertilizer_type == u) :=
        List.mem_of_mem_head? (by rw [hh]; exact rfl)
      have hr : s.fertilizer_type = u := by simpa using List.of_mem_filter hmem
      simp [PlantsDatabase.get_plant_by_fertilzer, hh, hr]

/-- Witness for `c10_by_attribute_first_match_projection` at `multiMatchDb`,
where two plots share pH 7 and fertilizer `potassium`: each query yields
the first matching row's partial record. -/
theorem c10_by_attribute_first_match_projection_witness :
    PlantsDatabase.get_plots_by_pH multiMatchDb 7 =
      some [("plot_id", Value.int 1), ("pH", Value.int 7)] ∧
    PlantsDatabase.get_plots_by_fertilizer multiMatchDb "potassium" =
      some [("plot_id", Value.int 1), ("fertilizer_type", Value.text "potassium")] ∧
    PlantsDatabase.get_plant_by_fertilzer multiMatchDb "potassium" =
      some [("fertilizer_type", Value.text "potassium")] :=
  ⟨(c10_by_attribute_first_match_projection multiMatchDb 7 "potassium" "potassium").1
      { plot_id := 1, sunlight := "full", pH := 7, fertilizer_type := "potassium" }
      (by decide),
   (c10_by_attribute_first_match_projection multiMatchDb 7 "potassium" "potassium").2.1
      { plot_id := 1, sunlight := "full", pH := 7, fertilizer_type := "potassium" }
      (by decide),
   (c10_by_attribute_first_match_projection multiMatchDb 7 "potassium" "potassium").2.2
      (by decide)⟩
